import Mathlib

set_option maxRecDepth 4000

/-
Verification development for the dashboard client's dual-channel delivery
coordinator (src/app/dashboard/page.tsx and src/components/task-input.tsx).

The page's event handlers are embedded as pure functions over an explicit
state record.  React `useState` values read inside a callback are the values
captured when the callback's closure was created (they are constants of that
render), while `useRef` cells always expose their current value; the embedding
keeps this distinction: the poll interval callback carries a `PollSnapshot` of
the `showResults` / `agentLogs` values captured at submission time, whereas
`taskIdRef`, `pollIntervalRef`, `reconnectTimeoutRef`, `pingIntervalRef` and
`wsRef` are fields of the current `DashState`.  Live timers are modelled as
lists of timer records so that duplicate or orphaned timers are observable.
-/

namespace Dashboard

/-- Progress-log entry carried in `agent_log` frames and appended to the
activity feed (`setAgentLogs`). -/
structure LogEntry where
  agent : String
  action : String
  message : String
  timestamp : String
deriving DecidableEq, Repr

/-- Result values surfaced to the results panel: either an opaque payload
delivered by the backend (`msg.result` / `task.result`), or an object literal
built by one of the handlers (`{error, status, summary, insights,
recommendations}`; the timeout object has no `error` field). -/
inductive ResultVal where
  | wire (payload : String)
  | obj (error : Option String) (status : String) (summary : String)
      (insights : List String) (recommendations : List String)
deriving DecidableEq, Repr

/-- Parsed WebSocket frame as read by the `ws.onmessage` handler (after the
`pong` short-circuit and `JSON.parse`). -/
structure WsMsg where
  type : String
  task_id : Option String
  log : Option LogEntry
  result : Option ResultVal
  error : Option String
deriving DecidableEq, Repr

/-- Reconnect timer as scheduled by `ws.onclose` via `setTimeout`. -/
structure RecTimer where
  id : Nat
  delay : Nat
  uid : String
deriving DecidableEq, Repr

/-- State of the dashboard page: React state (`isRunning`, `showResults`,
`result`, `agentLogs`, `wsConnected`), refs (`taskId`, `recRef`, `pollRef`,
`pingRef`, `wsPresent`), and the multiset of live timers.  `recTimers` /
`pollTimers` hold the timers that are actually scheduled (a cleared timer is
removed even when the ref still holds its stale id, as the cleanup function
clears timers without nulling the refs).  `pulls` is an observation log of the
task-status pull requests issued by the poll loop. -/
structure DashState where
  isRunning : Bool
  showResults : Bool
  result : Option ResultVal
  agentLogs : List LogEntry
  taskId : Option String
  wsPresent : Bool
  wsConnected : Bool
  pingRef : Bool
  pingLive : Bool
  recRef : Option Nat
  recTimers : List RecTimer
  pollRef : Option Nat
  pollTimers : List Nat
  pulls : List String
deriving DecidableEq, Repr

/-- Initial component state: everything false / null / empty. -/
def initState : DashState :=
  { isRunning := false, showResults := false, result := none, agentLogs := [],
    taskId := none, wsPresent := false, wsConnected := false,
    pingRef := false, pingLive := false, recRef := none, recTimers := [],
    pollRef := none, pollTimers := [], pulls := [] }

/-- Embedding of `if (pollIntervalRef.current) { clearInterval(...); pollIntervalRef.current = null }`:
the interval the ref points to is cancelled and the ref is nulled. -/
def clearPoll (s : DashState) : DashState :=
  match s.pollRef with
  | some i => { s with pollTimers := s.pollTimers.erase i, pollRef := none }
  | none => s

/-- The error-result object literal built by the `task_error` branch:
`{error: msg.error, status: 'error', summary: 'Error: ' + msg.error,
insights: ['An error occurred'], recommendations: ['Please try again']}`. -/
def mkPushErrorResult (e : Option String) : ResultVal :=
  .obj e "error" ("Error: " ++ e.getD "undefined")
    ["An error occurred"] ["Please try again"]

/-- The task-identity filter of `ws.onmessage`:
`taskIdRef.current && msg.task_id && msg.task_id !== taskIdRef.current`.
The frame is discarded exactly when both ids are present and differ. -/
def discardMsg (taskId : Option String) (mid : Option String) : Bool :=
  match taskId, mid with
  | some t, some m => m != t
  | _, _ => false

/-- The body of `ws.onmessage` after the identity filter: the three
sequential `if` branches on `msg.type`.  A malformed `agent_log` frame with no
`log` object throws before any mutation (reading `msg.log.agent`) and is
swallowed by the surrounding catch, hence leaves the state unchanged. -/
def applyMsg (s : DashState) (msg : WsMsg) : DashState :=
  let s1 :=
    if msg.type = "agent_log" then
      match msg.log with
      | some l => { s with agentLogs := s.agentLogs ++ [l] }
      | none => s
    else s
  let s2 :=
    if msg.type = "task_completed" then
      clearPoll { s1 with
        result := msg.result, showResults := true,
        isRunning := false, taskId := none }
    else s1
  if msg.type = "task_error" then
    clearPoll { s2 with
      result := some (mkPushErrorResult msg.error),
      showResults := true, isRunning := false, taskId := none }
  else s2

/-- The `ws.onmessage` handler for a parsed, non-pong frame. -/
def onMessage (s : DashState) (msg : WsMsg) : DashState :=
  if discardMsg s.taskId msg.task_id then s else applyMsg s msg

/-- Poll attempt budget: `const maxPolls = 30`. -/
def maxPolls : Nat := 30

/-- The object literal set on poll exhaustion:
`{status: 'error', summary: 'Task taking longer than expected',
insights: ['May still be processing'], recommendations: ['Check History page later']}`
(note: no `error` field). -/
def timeoutResult : ResultVal :=
  .obj none "error" "Task taking longer than expected"
    ["May still be processing"] ["Check History page later"]

/-- The fallback object used by the poll `error` branch when the task record
carries no result: `{error: 'Task failed', status: 'error', summary: 'Task failed',
insights: ['Error occurred'], recommendations: ['Try again']}`. -/
def pollDefaultErrorResult : ResultVal :=
  .obj (some "Task failed") "error" "Task failed" ["Error occurred"] ["Try again"]

/-- The synthetic log entry appended when polling retrieves a completion. -/
def systemCompletedLog (ts : String) : LogEntry :=
  { agent := "System", action := "completed",
    message := "Task completed (fallback retrieval)", timestamp := ts }

/-- Values of `showResults` and `agentLogs` captured by the poll callback's
closure: these are the committed state values of the render in which the
submission handler was created, not the live values. -/
structure PollSnapshot where
  showResults : Bool
  agentLogs : List LogEntry
deriving DecidableEq, Repr

/-- One poll cycle: the interval's timer id, the captured `newTaskId`, the
captured closure snapshot, and the cycle-local `pollCount` counter. -/
structure PollCycle where
  id : Nat
  taskId : String
  snapshot : PollSnapshot
  pollCount : Nat
deriving DecidableEq, Repr

/-- Outcome of one `GET /api/tasks/{id}` pull: an `ok` response with the task's
status and optional result, a non-2xx response, or a thrown transport error. -/
inductive PollResp where
  | ok (status : String) (result : Option ResultVal)
  | httpError
  | netError
deriving DecidableEq, Repr

/-- One firing of the poll interval callback.  The callback runs only while its
interval is still scheduled.  It increments `pollCount`, performs the
early-exit check against the closure snapshot, otherwise issues the pull
request (recorded in `pulls`) and dispatches on the response; finally the
timeout branch fires once `pollCount` reaches `maxPolls`.  There is no early
return after the terminal branches, so the timeout check runs in the same
tick. -/
def pollTick (c : PollCycle) (resp : PollResp) (ts : String) (s : DashState) :
    PollCycle × DashState :=
  if c.id ∈ s.pollTimers then
    let c' := { c with pollCount := c.pollCount + 1 }
    if c.snapshot.showResults || !c.snapshot.agentLogs.isEmpty then
      (c', clearPoll s)
    else
      let s1 := { s with pulls := s.pulls ++ [c.taskId] }
      let s2 :=
        match resp with
        | .ok status result =>
          if status = "completed" ∧ result.isSome then
            let sa := clearPoll s1
            { sa with
              result := result, showResults := true, isRunning := false,
              taskId := none,
              agentLogs := sa.agentLogs ++ [systemCompletedLog ts] }
          else if status = "error" then
            let sa := clearPoll s1
            { sa with
              result := some (result.getD pollDefaultErrorResult),
              showResults := true, isRunning := false, taskId := none }
          else s1
        | .httpError => s1
        | .netError => s1
      let s3 :=
        if maxPolls ≤ c'.pollCount then
          let sa := clearPoll s2
          { sa with
            result := some timeoutResult, showResults := true,
            isRunning := false }
        else s2
      (c', s3)
  else (c, s)

/-- Runs the poll callback `n` times; `f k` supplies the pull response and the
timestamp observed at tick `k`. -/
def runTicksF (f : Nat → PollResp × String) :
    Nat → PollCycle × DashState → PollCycle × DashState
  | 0, cs => cs
  | n + 1, cs =>
    let cs' := runTicksF f n cs
    pollTick cs'.1 (f n).1 (f n).2 cs'.2

/-- JavaScript's `!str.trim()` test: true exactly when the string contains
only whitespace (so that trimming it yields the empty, falsy string). -/
def isBlank (s : String) : Bool := s.data.all (fun c => c.isWhitespace)

/-- `setupWebSocket(uid)`: rejects an invalid identity, is a no-op when the
current channel is already open, otherwise closes any stale channel object and
creates a fresh one.  It touches neither the reconnect nor the poll timers. -/
def setupWebSocket (s : DashState) (uid : String) : DashState :=
  if uid = "" ∨ uid = "undefined" ∨ uid = "null" ∨ isBlank uid then s
  else if s.wsPresent ∧ s.wsConnected then s
  else { s with wsPresent := true }

/-- `ws.onopen`: marks the channel connected, clears a pending reconnect timer
(nulling its ref), and (re)starts the 30 s heartbeat interval. -/
def onOpen (s : DashState) : DashState :=
  let s1 := { s with wsConnected := true }
  let s2 :=
    match s1.recRef with
    | some i =>
      { s1 with recTimers := s1.recTimers.filter (fun t => t.id ≠ i), recRef := none }
    | none => s1
  let s3 := if s2.pingRef then { s2 with pingLive := false } else s2
  { s3 with pingRef := true, pingLive := true }

/-- `ws.onclose`: nulls the channel ref, marks disconnected, stops the
heartbeat, and — when the closure's `uid` is truthy and no reconnect timer id
is held — schedules exactly one reconnect via `setTimeout(..., 3000)` that
reuses the original identity. -/
def onClose (s : DashState) (uid : String) (newTimerId : Nat) : DashState :=
  let s1 := { s with wsPresent := false, wsConnected := false }
  let s2 := if s1.pingRef then { s1 with pingLive := false, pingRef := false } else s1
  if uid ≠ "" ∧ s2.recRef = none then
    { s2 with
      recTimers := s2.recTimers ++ [{ id := newTimerId, delay := 3000, uid := uid }],
      recRef := some newTimerId }
  else s2

/-- Firing of a scheduled reconnect timer: its callback nulls the ref and calls
`setupWebSocket(uid)` with the identity it captured.  Only a still-scheduled
timer can fire. -/
def recFire (s : DashState) (t : RecTimer) : DashState :=
  if t ∈ s.recTimers then
    let s1 := { s with recTimers := s.recTimers.filter (fun x => x.id ≠ t.id), recRef := none }
    setupWebSocket s1 t.uid
  else s

/-- The `useEffect` cleanup: `clearTimeout` / `clearInterval` on each held
timer ref (without nulling the refs) and `ws.close()` with the channel ref
nulled.  No suppression flag is set anywhere. -/
def teardown (s : DashState) : DashState :=
  let s1 :=
    match s.recRef with
    | some i => { s with recTimers := s.recTimers.filter (fun t => t.id ≠ i) }
    | none => s
  let s2 := if s1.pingRef then { s1 with pingLive := false } else s1
  let s3 :=
    match s2.pollRef with
    | some i => { s2 with pollTimers := s2.pollTimers.erase i }
    | none => s2
  if s3.wsPresent then { s3 with wsPresent := false } else s3

/-- Connection-level events delivered to the page: channel opened, channel
closed (with the id the scheduler would give a newly created reconnect timer),
a reconnect timer firing, and the effect cleanup. -/
inductive ConnEv where
  | opened
  | closed (newTimerId : Nat)
  | fired (t : RecTimer)
  | cleanup
deriving DecidableEq, Repr

/-- Dispatch of one connection event; `uid` is the identity captured by the
handlers' closures. -/
def connStep (uid : String) (s : DashState) (e : ConnEv) : DashState :=
  match e with
  | .opened => onOpen s
  | .closed i => onClose s uid i
  | .fired t => recFire s t
  | .cleanup => teardown s

/-- A run of connection events from a given state. -/
def connRun (uid : String) (s : DashState) (evs : List ConnEv) : DashState :=
  evs.foldl (connStep uid) s

/-- Reconnect-timer invariant: either no reconnect timer is scheduled, or
exactly one is, it is the one the ref holds, its delay is 3000 ms and it
carries the original identity. -/
def ConnInv (uid : String) (s : DashState) : Prop :=
  s.recTimers = [] ∨
    ∃ i, s.recRef = some i ∧ s.recTimers = [{ id := i, delay := 3000, uid := uid }]

/-- One attached file together with the outcome of its upload request:
`some docName` when the server acknowledges it, `none` when the upload fails
for any reason (transport error, non-2xx status, missing document name). -/
structure FileUpload where
  name : String
  outcome : Option String
deriving DecidableEq, Repr

/-- Sequential upload loop: returns the uploaded document names, the names of
the files whose upload was attempted (in order), and the name of the failing
file, if any.  The first failure aborts the loop. -/
def uploadLoop : List FileUpload → List String × List String × Option String
  | [] => ([], [], none)
  | f :: rest =>
    match f.outcome with
    | some d =>
      let r := uploadLoop rest
      (d :: r.1, f.name :: r.2.1, r.2.2)
    | none => ([], [f.name], some f.name)

/-- Outcome of a submission as observable from `handleStartTaskWithFiles`. -/
inductive SubmitRes where
  | emptyDescription
  | noToken
  | uploadFailed (fileName : String)
  | createFailed (err : String)
  | started (taskId : String) (uploaded : List String)
deriving DecidableEq, Repr

/-- Full observable output of one submission: the final state, the outcome,
the upload attempts in order, whether the task-creation request was issued,
and the poll cycle started on success. -/
structure SubmitOut where
  state : DashState
  res : SubmitRes
  attempted : List String
  createIssued : Bool
  cycle : Option PollCycle
deriving DecidableEq, Repr

/-- `handleStartTaskWithFiles(taskText, files)`.  The blank-description check
precedes all mutation; then the session state is reset (`isRunning := true`,
results and logs cleared, `taskIdRef` nulled); a missing token aborts (leaving
`isRunning` true, as the code only routes to the login page); uploads run
sequentially with the first failure aborting before task creation; on upload
success the channel is re-opened if the captured `wsConnected` was false; task
creation either throws into the catch block (which stops the run, clears the
logs and clears the referenced poll interval) or binds the new task id and
starts a fresh poll interval via plain assignment to `pollIntervalRef` —
without cancelling any interval already running.  The poll callback's
snapshot holds the pre-submission `showResults` / `agentLogs` values, which
are the values its closure captured. -/
def handleStartTask (s0 : DashState) (taskText : String) (hasToken : Bool)
    (uid : String) (files : List FileUpload) (createResp : Except String String)
    (newTimerId : Nat) : SubmitOut :=
  if isBlank taskText then
    { state := s0, res := .emptyDescription, attempted := [],
      createIssued := false, cycle := none }
  else
    let snap : PollSnapshot := { showResults := s0.showResults, agentLogs := s0.agentLogs }
    let s1 := { s0 with
      isRunning := true, showResults := false, result := none,
      agentLogs := [], taskId := none }
    if hasToken = false then
      { state := s1, res := .noToken, attempted := [],
        createIssued := false, cycle := none }
    else
      let u := uploadLoop files
      match u.2.2 with
      | some failName =>
        { state := { s1 with isRunning := false }, res := .uploadFailed failName,
          attempted := u.2.1, createIssued := false, cycle := none }
      | none =>
        let s2 := if !s1.wsConnected && uid ≠ "" then setupWebSocket s1 uid else s1
        match createResp with
        | .error e =>
          { state := clearPoll { s2 with isRunning := false, agentLogs := [] },
            res := .createFailed e, attempted := u.2.1,
            createIssued := true, cycle := none }
        | .ok tid =>
          let s3 := { s2 with
            taskId := some tid, pollRef := some newTimerId,
            pollTimers := newTimerId :: s2.pollTimers }
          { state := s3, res := .started tid u.1, attempted := u.2.1,
            createIssued := true,
            cycle := some { id := newTimerId, taskId := tid, snapshot := snap, pollCount := 0 } }

/-- The Start Task button's disabled predicate from task-input.tsx:
`disabled={!task.trim() || isRunning}`. -/
def startDisabled (task : String) (running : Bool) : Bool :=
  isBlank task || running

/-- Non-terminal pull response: it triggers neither the completion branch
(`status === 'completed' && task.result`) nor the error branch. -/
def NonTerminal : PollResp → Prop
  | .ok status result => ¬(status = "completed" ∧ result.isSome = true) ∧ status ≠ "error"
  | .httpError => True
  | .netError => True

/-! ### Helper lemmas -/

theorem setup_recTimers (s : DashState) (u : String) :
    (setupWebSocket s u).recTimers = s.recTimers := by
  unfold setupWebSocket
  split
  · rfl
  · split
    · rfl
    · rfl

theorem setup_pollTimers (s : DashState) (u : String) :
    (setupWebSocket s u).pollTimers = s.pollTimers := by
  unfold setupWebSocket
  split
  · rfl
  · split
    · rfl
    · rfl

theorem setup_pollRef (s : DashState) (u : String) :
    (setupWebSocket s u).pollRef = s.pollRef := by
  unfold setupWebSocket
  split
  · rfl
  · split
    · rfl
    · rfl

theorem setup_recRef (s : DashState) (u : String) :
    (setupWebSocket s u).recRef = s.recRef := by
  unfold setupWebSocket
  split
  · rfl
  · split
    · rfl
    · rfl

theorem ite_setup_pollTimers (P : Prop) [Decidable P] (x : DashState) (u : String) :
    (if P then setupWebSocket x u else x).pollTimers = x.pollTimers := by
  split
  · exact setup_pollTimers x u
  · rfl

theorem ite_setup_pollRef (P : Prop) [Decidable P] (x : DashState) (u : String) :
    (if P then setupWebSocket x u else x).pollRef = x.pollRef := by
  split
  · exact setup_pollRef x u
  · rfl

theorem clearPoll_pulls (s : DashState) : (clearPoll s).pulls = s.pulls := by
  unfold clearPoll
  cases s.pollRef
  · rfl
  · rfl

theorem onOpen_rec (s : DashState) :
    (onOpen s).recRef = none ∧
    (onOpen s).recTimers =
      (match s.recRef with
       | some i => s.recTimers.filter (fun t => t.id ≠ i)
       | none => s.recTimers) := by
  obtain ⟨a1, a2, a3, a4, a5, a6, a7, a8, a9, a10, a11, a12, a13, a14⟩ := s
  unfold onOpen
  cases a10 <;> cases a8 <;> simp

theorem onClose_rec (s : DashState) (uid : String) (j : Nat) :
    (onClose s uid j).recRef =
      (if uid ≠ "" ∧ s.recRef = none then some j else s.recRef) ∧
    (onClose s uid j).recTimers =
      (if uid ≠ "" ∧ s.recRef = none then
        s.recTimers ++ [{ id := j, delay := 3000, uid := uid }]
       else s.recTimers) := by
  obtain ⟨a1, a2, a3, a4, a5, a6, a7, a8, a9, a10, a11, a12, a13, a14⟩ := s
  unfold onClose
  cases a8 <;> by_cases h : uid ≠ "" ∧ a10 = none <;> simp [h]

theorem recFire_rec (s : DashState) (t : RecTimer) :
    (recFire s t).recTimers =
      (if t ∈ s.recTimers then s.recTimers.filter (fun x => x.id ≠ t.id) else s.recTimers) ∧
    (recFire s t).recRef = (if t ∈ s.recTimers then none else s.recRef) := by
  unfold recFire
  split
  · exact ⟨by rw [setup_recTimers], by rw [setup_recRef]⟩
  · exact ⟨rfl, rfl⟩

theorem teardown_rec (s : DashState) :
    (teardown s).recRef = s.recRef ∧
    (teardown s).recTimers =
      (match s.recRef with
       | some i => s.recTimers.filter (fun t => t.id ≠ i)
       | none => s.recTimers) := by
  obtain ⟨a1, a2, a3, a4, a5, a6, a7, a8, a9, a10, a11, a12, a13, a14⟩ := s
  unfold teardown
  cases a10 <;> cases a8 <;> cases a12 <;> cases a6 <;> simp

/-! ### Claim theorems -/

/-- Claim C2: a push notification carrying a task id different from the
session's active task id is discarded by the identity filter before any
mutation — processing it is the identity on the whole state. -/
theorem foreign_task_discarded (s : DashState) (msg : WsMsg) (t u : String)
    (htask : s.taskId = some t) (hmsg : msg.task_id = some u) (hne : u ≠ t) :
    onMessage s msg = s := by
  unfold onMessage
  rw [htask, hmsg]
  simp [discardMsg, bne_iff_ne, hne]

/-- Witness for C2: with active task `"t1"`, a frame for `"t0"` leaves the
state untouched. -/
theorem foreign_task_discarded_witness :
    ({ initState with taskId := some "t1" } : DashState).taskId = some "t1" ∧
    ({ type := "agent_log", task_id := some "t0",
       log := some ⟨"A", "act", "m", "ts"⟩, result := none, error := none } : WsMsg).task_id
      = some "t0" ∧
    onMessage { initState with taskId := some "t1" }
      { type := "agent_log", task_id := some "t0",
        log := some ⟨"A", "act", "m", "ts"⟩, result := none, error := none }
      = { initState with taskId := some "t1" } :=
  ⟨rfl, rfl,
    foreign_task_discarded { initState with taskId := some "t1" }
      { type := "agent_log", task_id := some "t0",
        log := some ⟨"A", "act", "m", "ts"⟩, result := none, error := none }
      "t1" "t0" rfl rfl (by decide)⟩

/-- Claim C10: when the session's task id is null, or when a frame carries no
task id, the identity filter is bypassed and the frame is applied in full:
agent logs are appended, and `task_completed` / `task_error` perform the
terminal mutations, whatever task id the frame carries. -/
theorem null_taskid_bypasses_filter (s : DashState) (hnone : s.taskId = none) :
    (∀ msg, onMessage s msg = applyMsg s msg) ∧
    (∀ s2 : DashState, ∀ msg : WsMsg, msg.task_id = none →
      onMessage s2 msg = applyMsg s2 msg) ∧
    (∀ tid : Option String, ∀ l : LogEntry,
      (onMessage s { type := "agent_log", task_id := tid, log := some l,
                     result := none, error := none }).agentLogs
        = s.agentLogs ++ [l]) ∧
    (∀ tid : Option String, ∀ r : ResultVal,
      onMessage s { type := "task_completed", task_id := tid, log := none,
                    result := some r, error := none }
        = clearPoll { s with
            result := some r, showResults := true, isRunning := false,
            taskId := none }) ∧
    (∀ tid : Option String, ∀ e : String,
      onMessage s { type := "task_error", task_id := tid, log := none,
                    result := none, error := some e }
        = clearPoll { s with
            result := some (mkPushErrorResult (some e)), showResults := true,
            isRunning := false, taskId := none }) := by
  have hbypass : ∀ msg : WsMsg, onMessage s msg = applyMsg s msg := by
    intro msg
    unfold onMessage
    rw [hnone]
    have hd : discardMsg none msg.task_id = false := by
      cases msg.task_id <;> rfl
    rw [hd]
    simp
  refine ⟨hbypass, ?_, ?_, ?_, ?_⟩
  · intro s2 msg hmid
    unfold onMessage
    rw [hmid]
    have hd : discardMsg s2.taskId none = false := by
      cases s2.taskId <;> rfl
    rw [hd]
    simp
  · intro tid l
    rw [hbypass]
    simp +decide [applyMsg, clearPoll]
  · intro tid r
    rw [hbypass]
    simp +decide [applyMsg]
  · intro tid e
    rw [hbypass]
    simp +decide [applyMsg]

/-- Witness for C10: instantiated at the initial state, whose task id is
null. -/
theorem null_taskid_bypasses_filter_witness :
    initState.taskId = none ∧
    ((∀ msg, onMessage initState msg = applyMsg initState msg) ∧
     (∀ s2 : DashState, ∀ msg : WsMsg, msg.task_id = none →
       onMessage s2 msg = applyMsg s2 msg) ∧
     (∀ tid : Option String, ∀ l : LogEntry,
       (onMessage initState { type := "agent_log", task_id := tid, log := some l,
                              result := none, error := none }).agentLogs
         = initState.agentLogs ++ [l]) ∧
     (∀ tid : Option String, ∀ r : ResultVal,
       onMessage initState { type := "task_completed", task_id := tid, log := none,
                             result := some r, error := none }
         = clearPoll { initState with
             result := some r, showResults := true, isRunning := false,
             taskId := none }) ∧
     (∀ tid : Option String, ∀ e : String,
       onMessage initState { type := "task_error", task_id := tid, log := none,
                             result := none, error := some e }
         = clearPoll { initState with
             result := some (mkPushErrorResult (some e)), showResults := true,
             isRunning := false, taskId := none })) :=
  ⟨rfl, null_taskid_bypasses_filter initState rfl⟩

/-- Claim C1, counterexample: after the poll channel applies the terminal
transition (which clears `taskId` to null), a later `task_error` push frame
for the very same task id passes the disabled identity filter and is
re-applied, overwriting the stored completion result — it is not an
idempotent no-op. -/
theorem terminal_overwrite_cex :
    (let s0 : DashState := { initState with
       isRunning := true, taskId := some "t1", pollRef := some 1, pollTimers := [1] }
     let c0 : PollCycle := { id := 1, taskId := "t1", snapshot := ⟨false, []⟩, pollCount := 0 }
     let s1 := (pollTick c0 (.ok "completed" (some (.wire "r1"))) "ts1" s0).2
     let s2 := onMessage s1 { type := "task_error", task_id := some "t1", log := none,
                              result := none, error := some "boom" }
     s1.result = some (.wire "r1") ∧ s1.showResults = true ∧ s1.isRunning = false ∧
     s1.taskId = none ∧
     s2.result = some (mkPushErrorResult (some "boom")) ∧
     s2.result ≠ s1.result ∧ s2 ≠ s1) := by
  decide

/-- Claim C1 as amended: when the push channel resolves first, PollingFallback
is cancelled (the interval is cleared, and a cleared cycle's ticks are
no-ops), so the poll channel cannot re-apply; but a terminal transition clears
`taskId`, which disables the identity filter, so any later frame — including a
terminal one for the same task — is applied unfiltered. -/
theorem push_first_cancels_poll (s : DashState) (t : String) (r : ResultVal) (i : Nat)
    (htask : s.taskId = some t) (href : s.pollRef = some i) (htimers : s.pollTimers = [i]) :
    (let s' := onMessage s { type := "task_completed", task_id := some t, log := none,
                             result := some r, error := none }
     s'.result = some r ∧ s'.showResults = true ∧ s'.isRunning = false ∧
     s'.taskId = none ∧ s'.pollTimers = [] ∧ s'.pollRef = none ∧
     (∀ c : PollCycle, ∀ resp : PollResp, ∀ ts : String,
       pollTick c resp ts s' = (c, s'))) ∧
    (∀ s2 : DashState, ∀ msg : WsMsg, s2.taskId = none →
      onMessage s2 msg = applyMsg s2 msg) := by
  constructor
  · have hfilter : discardMsg s.taskId (some t) = false := by
      rw [htask]
      simp [discardMsg]
    have happ : onMessage s { type := "task_completed", task_id := some t, log := none,
                              result := some r, error := none }
        = clearPoll { s with
            result := some r, showResults := true, isRunning := false, taskId := none } := by
      unfold onMessage
      rw [hfilter]
      simp +decide [applyMsg]
    rw [happ]
    have hclear : clearPoll { s with
        result := some r, showResults := true, isRunning := false, taskId := none }
        = { s with
            result := some r, showResults := true, isRunning := false, taskId := none,
            pollTimers := [], pollRef := none } := by
      unfold clearPoll
      simp only [href, htimers]
      simp [List.erase_cons_head]
    rw [hclear]
    refine ⟨rfl, rfl, rfl, rfl, rfl, rfl, ?_⟩
    intro c resp ts
    unfold pollTick
    rw [if_neg (by simp)]
  · intro s2 msg hmid
    unfold onMessage
    rw [hmid]
    have hd : discardMsg none msg.task_id = false := by
      cases msg.task_id <;> rfl
    rw [hd]
    simp

/-- Witness for the amended C1 at a concrete running session. -/
theorem push_first_cancels_poll_witness :
    ({ initState with
       isRunning := true, taskId := some "t9", pollRef := some 4,
       pollTimers := [4] } : DashState).taskId = some "t9" ∧
    ((let s' := onMessage
        { initState with
          isRunning := true, taskId := some "t9", pollRef := some 4, pollTimers := [4] }
        { type := "task_completed", task_id := some "t9", log := none,
          result := some (.wire "done"), error := none }
      s'.result = some (.wire "done") ∧ s'.showResults = true ∧ s'.isRunning = false ∧
      s'.taskId = none ∧ s'.pollTimers = [] ∧ s'.pollRef = none ∧
      (∀ c : PollCycle, ∀ resp : PollResp, ∀ ts : String,
        pollTick c resp ts s' = (c, s'))) ∧
     (∀ s2 : DashState, ∀ msg : WsMsg, s2.taskId = none →
       onMessage s2 msg = applyMsg s2 msg)) :=
  ⟨rfl, push_first_cancels_poll
    { initState with
      isRunning := true, taskId := some "t9", pollRef := some 4, pollTimers := [4] }
    "t9" (.wire "done") 4 rfl rfl rfl⟩

/-- Claim C9, counterexample: a tick whose cycle snapshot is clean but whose
session has already surfaced results (current `showResults = true`) does not
cancel itself — it issues the pull request and leaves its timer scheduled,
because the early-exit check reads the closure snapshot, not the session's
current state. -/
theorem poll_stale_snapshot_cex :
    (let s : DashState := { initState with
       showResults := true, pollRef := some 1, pollTimers := [1] }
     let c : PollCycle := { id := 1, taskId := "t1", snapshot := ⟨false, []⟩, pollCount := 0 }
     let r := pollTick c (.ok "running" none) "ts" s
     s.showResults = true ∧ r.2.pulls = ["t1"] ∧ r.2.pollTimers = [1] ∧
     r.2.pollRef = some 1) := by
  decide

/-- Claim C9 as amended: before issuing a pull request the tick checks the
`showResults` / `agentLogs` values captured when the poll cycle was created;
when that snapshot indicates surfaced results, the tick cancels the referenced
interval and issues no pull request.  The check reads the creation-time
snapshot, not the session's current state. -/
theorem poll_snapshot_cancel (c : PollCycle) (s : DashState) (resp : PollResp) (ts : String)
    (hlive : c.id ∈ s.pollTimers)
    (hsnap : c.snapshot.showResults = true ∨ c.snapshot.agentLogs ≠ []) :
    pollTick c resp ts s = ({ c with pollCount := c.pollCount + 1 }, clearPoll s) ∧
    (clearPoll s).pulls = s.pulls := by
  refine ⟨?_, clearPoll_pulls s⟩
  unfold pollTick
  rw [if_pos hlive]
  have hcond : (c.snapshot.showResults || !c.snapshot.agentLogs.isEmpty) = true := by
    rcases hsnap with h | h
    · simp [h]
    · simp [h]
  simp [hcond]

/-- Witness for the amended C9: a cycle whose snapshot already shows results
cancels on its first tick without pulling. -/
theorem poll_snapshot_cancel_witness :
    (3 : Nat) ∈ ([3] : List Nat) ∧
    (pollTick { id := 3, taskId := "t7", snapshot := ⟨true, []⟩, pollCount := 0 }
        (.ok "running" none) "ts"
        { initState with pollRef := some 3, pollTimers := [3] }
      = ({ id := 3, taskId := "t7", snapshot := ⟨true, []⟩, pollCount := 1 },
         clearPoll { initState with pollRef := some 3, pollTimers := [3] }) ∧
     (clearPoll { initState with pollRef := some 3, pollTimers := [3] }).pulls
       = ({ initState with pollRef := some 3, pollTimers := [3] } : DashState).pulls) :=
  ⟨by decide,
   poll_snapshot_cancel
     { id := 3, taskId := "t7", snapshot := ⟨true, []⟩, pollCount := 0 }
     { initState with pollRef := some 3, pollTimers := [3] }
     (.ok "running" none) "ts" (by decide) (Or.inl rfl)⟩

/-- Claim C7, counterexample: invoking the submission handler while a session
is running (non-Idle) does not fail with any busy error — it is accepted,
resets the in-flight session's logs, and rebinds the task id. -/
theorem submit_no_busy_check_cex :
    (let s : DashState := { initState with
       isRunning := true, taskId := some "t0",
       agentLogs := [{ agent := "A", action := "act", message := "m", timestamp := "ts" }] }
     let out := handleStartTask s "new task" true "u1" [] (.ok "t1") 2
     s.isRunning = true ∧ out.res = .started "t1" [] ∧ out.state.taskId = some "t1" ∧
     out.state.agentLogs = [] ∧ out.state ≠ s) := by
  decide

/-- Claim C7 as amended: non-Idle submissions are prevented only at the UI
layer — the Start Task button is disabled whenever `isRunning` is set — while
the handler itself performs no busy check at all: its behaviour is completely
independent of the `isRunning` flag. -/
theorem submit_guard_ui_only (s : DashState) (b b' : Bool) (txt uid : String)
    (tok : Bool) (files : List FileUpload) (cr : Except String String) (nid : Nat)
    (htxt : isBlank txt = false) :
    handleStartTask { s with isRunning := b } txt tok uid files cr nid
      = handleStartTask { s with isRunning := b' } txt tok uid files cr nid ∧
    (∀ task : String, startDisabled task true = true) := by
  constructor
  · unfold handleStartTask
    rw [htxt]
    simp only [Bool.false_eq_true, if_false]
  · intro task
    simp [startDisabled]

/-- Witness for the amended C7 at concrete inputs. -/
theorem submit_guard_ui_only_witness :
    isBlank "do it" = false ∧
    (handleStartTask { initState with isRunning := true } "do it" true "u1" [] (.ok "t1") 2
       = handleStartTask { initState with isRunning := false } "do it" true "u1" [] (.ok "t1") 2 ∧
     (∀ task : String, startDisabled task true = true)) :=
  ⟨by decide,
   submit_guard_ui_only initState true false "do it" "u1" true [] (.ok "t1") 2 (by decide)⟩

/-- Claim C8, counterexample: starting a submission while a poll cycle is
still live does not cancel the existing interval — after the new start two
poll timers are scheduled concurrently, and the ref tracks only the newest. -/
theorem poll_start_not_idempotent_cex :
    (let s : DashState := { initState with
       isRunning := true, taskId := some "t0", pollRef := some 1, pollTimers := [1] }
     let out := handleStartTask s "again" true "u1" [] (.ok "t1") 2
     s.pollTimers = [1] ∧ out.state.pollTimers = [2, 1] ∧
     out.state.pollTimers.length = 2 ∧ out.state.pollRef = some 2) := by
  decide

/-- Claim C8 as amended: on task-creation success the handler assigns a fresh
interval on top of whatever poll timers are already live (no cancellation),
overwrites the ref with the new timer, and the new cycle restarts its own
counter at zero with the submission-time snapshot. -/
theorem poll_start_stacks_timers (s : DashState) (txt uid tid : String) (nid : Nat)
    (htxt : isBlank txt = false) :
    (let out := handleStartTask s txt true uid [] (.ok tid) nid
     out.state.pollTimers = nid :: s.pollTimers ∧
     out.state.pollRef = some nid ∧
     out.res = .started tid [] ∧
     out.cycle = some { id := nid, taskId := tid,
                        snapshot := ⟨s.showResults, s.agentLogs⟩, pollCount := 0 }) := by
  unfold handleStartTask
  rw [htxt]
  simp [uploadLoop, ite_setup_pollTimers, ite_setup_pollRef]

/-- Witness for the amended C8 at concrete inputs. -/
theorem poll_start_stacks_timers_witness :
    isBlank "again" = false ∧
    (let out := handleStartTask
        { initState with
          isRunning := true, taskId := some "t0", pollRef := some 1, pollTimers := [1] }
        "again" true "u1" [] (.ok "t1") 2
     out.state.pollTimers = [2, 1] ∧
     out.state.pollRef = some 2 ∧
     out.res = .started "t1" [] ∧
     out.cycle = some { id := 2, taskId := "t1",
                        snapshot := ⟨false, []⟩, pollCount := 0 }) :=
  ⟨by decide,
   poll_start_stacks_timers
     { initState with
       isRunning := true, taskId := some "t0", pollRef := some 1, pollTimers := [1] }
     "again" "u1" "t1" 2 (by decide)⟩

theorem connStep_inv (uid : String) (s : DashState) (e : ConnEv)
    (h : ConnInv uid s) : ConnInv uid (connStep uid s e) := by
  cases e with
  | opened =>
    simp only [connStep]
    have hrec := onOpen_rec s
    left
    rcases h with h0 | ⟨i, hr, ht⟩
    · rw [hrec.2]
      cases hrr : s.recRef <;> simp [h0]
    · rw [hrec.2, hr, ht]
      simp
  | closed j =>
    simp only [connStep]
    have hrec := onClose_rec s uid j
    by_cases hg : uid ≠ "" ∧ s.recRef = none
    · right
      refine ⟨j, by rw [hrec.1, if_pos hg], ?_⟩
      rw [hrec.2, if_pos hg]
      rcases h with h0 | ⟨i, hr, ht⟩
      · rw [h0]
        rfl
      · rw [hr] at hg
        exact absurd hg.2 (by simp)
    · rcases h with h0 | ⟨i, hr, ht⟩
      · left
        rw [hrec.2, if_neg hg]
        exact h0
      · exact Or.inr ⟨i, by rw [hrec.1, if_neg hg]; exact hr,
          by rw [hrec.2, if_neg hg]; exact ht⟩
  | fired t =>
    simp only [connStep]
    have hrec := recFire_rec s t
    by_cases hm : t ∈ s.recTimers
    · left
      rw [hrec.1, if_pos hm]
      rcases h with h0 | ⟨i, hr, ht⟩
      · rw [h0]
        rfl
      · have hti : t = ⟨i, 3000, uid⟩ := by
          rw [ht] at hm
          simpa using hm
        rw [ht, hti]
        simp
    · rcases h with h0 | ⟨i, hr, ht⟩
      · left
        rw [hrec.1, if_neg hm]
        exact h0
      · exact Or.inr ⟨i, by rw [hrec.2, if_neg hm]; exact hr,
          by rw [hrec.1, if_neg hm]; exact ht⟩
  | cleanup =>
    simp only [connStep]
    have hrec := teardown_rec s
    left
    rcases h with h0 | ⟨i, hr, ht⟩
    · rw [hrec.2]
      cases hrr : s.recRef <;> simp [h0]
    · rw [hrec.2, hr, ht]
      simp

theorem connRun_inv (uid : String) (evs : List ConnEv) (s : DashState)
    (h : ConnInv uid s) : ConnInv uid (connRun uid s evs) := by
  induction evs generalizing s with
  | nil => exact h
  | cons e es ih => exact ih (connStep uid s e) (connStep_inv uid s e h)

/-- Claim C3: across any sequence of non-teardown connection events, at most
one reconnect timer is ever pending, every pending timer was scheduled with
the fixed 3000 ms delay and carries the original identity, and a close that
arrives while a reconnect timer is pending schedules no additional timer. -/
theorem reconnect_discipline (uid : String) (evs : List ConnEv)
    (hnt : ConnEv.cleanup ∉ evs) :
    ((connRun uid initState evs).recTimers.length ≤ 1) ∧
    (∀ t ∈ (connRun uid initState evs).recTimers, t.delay = 3000 ∧ t.uid = uid) ∧
    (∀ j : Nat, (connRun uid initState evs).recTimers ≠ [] →
      (onClose (connRun uid initState evs) uid j).recTimers
        = (connRun uid initState evs).recTimers) := by
  have hinv := connRun_inv uid evs initState (Or.inl rfl)
  rcases hinv with h0 | ⟨i, hr, ht⟩
  · refine ⟨by rw [h0]; simp, ?_, ?_⟩
    · intro t htm
      rw [h0] at htm
      cases htm
    · intro j hne
      exact absurd h0 hne
  · refine ⟨by rw [ht]; simp, ?_, ?_⟩
    · intro t htm
      rw [ht] at htm
      have hti : t = ⟨i, 3000, uid⟩ := by simpa using htm
      rw [hti]
      exact ⟨rfl, rfl⟩
    · intro j hne
      have hng : ¬(uid ≠ "" ∧ (connRun uid initState evs).recRef = none) := by
        rw [hr]
        rintro ⟨-, hc⟩
        cases hc
      rw [(onClose_rec (connRun uid initState evs) uid j).2, if_neg hng]

/-- Witness for C3: two consecutive non-teardown closes schedule a single
3000 ms timer for the original identity. -/
theorem reconnect_discipline_witness :
    (ConnEv.cleanup ∉ [ConnEv.closed 1, ConnEv.closed 2]) ∧
    (((connRun "u1" initState [ConnEv.closed 1, ConnEv.closed 2]).recTimers.length ≤ 1) ∧
     (∀ t ∈ (connRun "u1" initState [ConnEv.closed 1, ConnEv.closed 2]).recTimers,
        t.delay = 3000 ∧ t.uid = "u1") ∧
     (∀ j : Nat, (connRun "u1" initState [ConnEv.closed 1, ConnEv.closed 2]).recTimers ≠ [] →
        (onClose (connRun "u1" initState [ConnEv.closed 1, ConnEv.closed 2]) "u1" j).recTimers
          = (connRun "u1" initState [ConnEv.closed 1, ConnEv.closed 2]).recTimers)) :=
  ⟨by decide, reconnect_discipline "u1" [ConnEv.closed 1, ConnEv.closed 2] (by decide)⟩

/-- Claim C4: the cleanup has no reconnect-suppression flag.  Tearing the page
down while connected (with no reconnect timer pending) leaves no timer, but
the close event the teardown itself triggers then schedules a fresh 3000 ms
reconnect, and when it fires the channel is reopened — a reconnect does occur
after teardown, contradicting the claim. -/
theorem teardown_reconnect_bug :
    (let sA := onOpen (setupWebSocket initState "u1")
     let sB := teardown sA
     let sC := onClose sB "u1" 7
     let sD := recFire sC { id := 7, delay := 3000, uid := "u1" }
     sB.recTimers = [] ∧ sB.wsPresent = false ∧ sB.pingLive = false ∧
     sC.recTimers = [{ id := 7, delay := 3000, uid := "u1" }] ∧
     sD.wsPresent = true) := by
  decide

theorem uploadLoop_fails (good : List FileUpload) (f : FileUpload) (rest : List FileUpload)
    (h : ∀ g ∈ good, g.outcome.isSome = true) (hf : f.outcome = none) :
    (uploadLoop (good ++ f :: rest)).2.2 = some f.name ∧
    (uploadLoop (good ++ f :: rest)).2.1 = good.map FileUpload.name ++ [f.name] := by
  induction good with
  | nil =>
    simp [uploadLoop, hf]
  | cons g gs ih =>
    have hg : g.outcome.isSome = true := h g (List.mem_cons_self g gs)
    obtain ⟨d, hd⟩ := Option.isSome_iff_exists.mp hg
    have ihh := ih (fun x hx => h x (List.mem_cons_of_mem g hx))
    simp only [List.cons_append, uploadLoop, hd]
    simp [ihh.1, ihh.2]

/-- Claim C5: uploads run sequentially in list order; the first failing file
aborts the whole submission before the task-creation request is issued, the
session stops running, and the surfaced UploadError names the failing file; a
submission with zero files proceeds straight to task creation. -/
theorem upload_abort_seq (s0 : DashState) (txt uid : String)
    (good : List FileUpload) (f : FileUpload) (rest : List FileUpload)
    (cr : Except String String) (nid : Nat)
    (htxt : isBlank txt = false)
    (hg : ∀ g ∈ good, g.outcome.isSome = true) (hf : f.outcome = none) :
    (let out := handleStartTask s0 txt true uid (good ++ f :: rest) cr nid
     out.res = .uploadFailed f.name ∧
     out.attempted = good.map FileUpload.name ++ [f.name] ∧
     out.createIssued = false ∧ out.cycle = none ∧
     out.state.isRunning = false) ∧
    (handleStartTask s0 txt true uid [] cr nid).createIssued = true := by
  constructor
  · have hu := uploadLoop_fails good f rest hg hf
    unfold handleStartTask
    rw [htxt]
    simp [hu.1, hu.2]
  · unfold handleStartTask
    rw [htxt]
    cases cr <;> simp [uploadLoop]

/-- Witness for C5: three files with the second failing; and the zero-file
case. -/
theorem upload_abort_seq_witness :
    isBlank "task" = false ∧
    (∀ g ∈ ([⟨"a.pdf", some "doc-a"⟩] : List FileUpload), g.outcome.isSome = true) ∧
    (⟨"b.pdf", none⟩ : FileUpload).outcome = none ∧
    ((let out := handleStartTask initState "task" true "u1"
        ([⟨"a.pdf", some "doc-a"⟩] ++ ⟨"b.pdf", none⟩ :: [⟨"c.pdf", some "doc-c"⟩])
        (.ok "t1") 2
      out.res = .uploadFailed "b.pdf" ∧
      out.attempted = ["a.pdf", "b.pdf"] ∧
      out.createIssued = false ∧ out.cycle = none ∧
      out.state.isRunning = false) ∧
     (handleStartTask initState "task" true "u1" [] (.ok "t1") 2).createIssued = true) :=
  ⟨by decide, by decide, rfl,
   upload_abort_seq initState "task" "u1"
     [⟨"a.pdf", some "doc-a"⟩] ⟨"b.pdf", none⟩ [⟨"c.pdf", some "doc-c"⟩]
     (.ok "t1") 2 (by decide) (by decide) rfl⟩

theorem pollTick_steady (c : PollCycle) (s : DashState) (resp : PollResp) (ts : String)
    (htimers : s.pollTimers = [c.id])
    (hsA : c.snapshot.showResults = false) (hsB : c.snapshot.agentLogs = [])
    (hnt : NonTerminal resp) (hcnt : c.pollCount + 1 < 30) :
    pollTick c resp ts s =
      ({ c with pollCount := c.pollCount + 1 },
       { s with pulls := s.pulls ++ [c.taskId] }) := by
  unfold pollTick
  have hm : c.id ∈ s.pollTimers := by
    rw [htimers]
    exact List.mem_singleton_self _
  rw [if_pos hm]
  have hcond : (c.snapshot.showResults || !c.snapshot.agentLogs.isEmpty) = false := by
    rw [hsA, hsB]
    rfl
  have htm : ¬ (maxPolls ≤ c.pollCount + 1) := by
    unfold maxPolls
    omega
  cases resp with
  | ok st r =>
    obtain ⟨h1, h2⟩ := hnt
    simp [hcond, h1, h2, htm]
  | httpError =>
    simp [hcond, htm]
  | netError =>
    simp [hcond, htm]

theorem runTicksF_steady (f : Nat → PollResp × String) (c0 : PollCycle) (s0 : DashState)
    (hcnt0 : c0.pollCount = 0)
    (htimers : s0.pollTimers = [c0.id])
    (hsA : c0.snapshot.showResults = false) (hsB : c0.snapshot.agentLogs = [])
    (n : Nat) (hn : n < 30) (hnt : ∀ k, k < n → NonTerminal (f k).1) :
    runTicksF f n (c0, s0) =
      ({ c0 with pollCount := n },
       { s0 with pulls := s0.pulls ++ List.replicate n c0.taskId }) := by
  induction n with
  | zero =>
    simp only [runTicksF, List.replicate, List.append_nil]
    rw [← hcnt0]
  | succ n ih =>
    have hn' : n < 30 := Nat.lt_of_succ_lt hn
    have ihh := ih hn' (fun k hk => hnt k (Nat.lt_succ_of_lt hk))
    simp only [runTicksF]
    rw [ihh]
    have hstep := pollTick_steady { c0 with pollCount := n }
        { s0 with pulls := s0.pulls ++ List.replicate n c0.taskId } (f n).1 (f n).2
        htimers hsA hsB (hnt n (Nat.lt_succ_self n)) hn
    rw [hstep]
    rw [List.replicate_succ']
    simp [List.append_assoc]

theorem pollTick_timeoutStep (c : PollCycle) (s : DashState) (resp : PollResp) (ts : String)
    (htimers : s.pollTimers = [c.id]) (href : s.pollRef = some c.id)
    (hsA : c.snapshot.showResults = false) (hsB : c.snapshot.agentLogs = [])
    (hnt : NonTerminal resp) (hcnt : c.pollCount + 1 = 30) :
    pollTick c resp ts s =
      ({ c with pollCount := c.pollCount + 1 },
       { s with
         pulls := s.pulls ++ [c.taskId], pollTimers := [], pollRef := none,
         result := some timeoutResult, showResults := true, isRunning := false }) := by
  unfold pollTick
  have hm : c.id ∈ s.pollTimers := by
    rw [htimers]
    exact List.mem_singleton_self _
  rw [if_pos hm]
  have hcond : (c.snapshot.showResults || !c.snapshot.agentLogs.isEmpty) = false := by
    rw [hsA, hsB]
    rfl
  have htm : maxPolls ≤ c.pollCount + 1 := by
    unfold maxPolls
    omega
  cases resp with
  | ok st r =>
    obtain ⟨h1, h2⟩ := hnt
    simp [hcond, h1, h2, htm, clearPoll, href, htimers]
  | httpError =>
    simp [hcond, htm, clearPoll, href, htimers]
  | netError =>
    simp [hcond, htm, clearPoll, href, htimers]

/-- Claim C6: thirty poll ticks, every one of them answered non-terminally and
with no push-channel resolution, drive the session into the timeout pseudo
state exactly once: the timeout result (whose message says the task may still
be processing and points the caller at the History page) is surfaced, the
session stops running, the poll interval is cancelled so no further tick can
fire, and the surfaced object is distinct from every failure-branch result. -/
theorem poll_timeout_after_thirty (f : Nat → PollResp × String) (c0 : PollCycle)
    (s0 : DashState)
    (hcnt0 : c0.pollCount = 0) (href : s0.pollRef = some c0.id)
    (htimers : s0.pollTimers = [c0.id])
    (hsA : c0.snapshot.showResults = false) (hsB : c0.snapshot.agentLogs = [])
    (hnt : ∀ k, k < 30 → NonTerminal (f k).1) :
    (let r := runTicksF f 30 (c0, s0)
     r.1.pollCount = 30 ∧
     r.2.result = some timeoutResult ∧ r.2.showResults = true ∧ r.2.isRunning = false ∧
     r.2.pollTimers = [] ∧ r.2.pollRef = none ∧
     (∀ resp : PollResp, ∀ ts : String, pollTick r.1 resp ts r.2 = (r.1, r.2))) ∧
    timeoutResult ≠ pollDefaultErrorResult ∧
    (∀ e : Option String, timeoutResult ≠ mkPushErrorResult e) := by
  have h29 := runTicksF_steady f c0 s0 hcnt0 htimers hsA hsB 29 (by omega)
    (fun k hk => hnt k (by omega))
  have hfin := pollTick_timeoutStep { c0 with pollCount := 29 }
      { s0 with pulls := s0.pulls ++ List.replicate 29 c0.taskId } (f 29).1 (f 29).2
      htimers href hsA hsB (hnt 29 (by omega)) rfl
  have hrun : runTicksF f 30 (c0, s0)
      = ({ c0 with pollCount := 30 },
         { s0 with
           pulls := (s0.pulls ++ List.replicate 29 c0.taskId) ++ [c0.taskId],
           pollTimers := [], pollRef := none, result := some timeoutResult,
           showResults := true, isRunning := false }) := by
    have hsplit : runTicksF f 30 (c0, s0)
        = pollTick (runTicksF f 29 (c0, s0)).1 (f 29).1 (f 29).2
            (runTicksF f 29 (c0, s0)).2 := rfl
    rw [hsplit, h29]
    exact hfin
  refine ⟨?_, by decide, ?_⟩
  · rw [hrun]
    refine ⟨rfl, rfl, rfl, rfl, rfl, rfl, ?_⟩
    intro resp ts
    unfold pollTick
    rw [if_neg (by simp)]
  · intro e
    cases e with
    | none => decide
    | some x => simp [timeoutResult, mkPushErrorResult]

/-- Witness for C6: a fresh cycle polled thirty times with status
`"running"`. -/
theorem poll_timeout_after_thirty_witness :
    (({ id := 1, taskId := "t1", snapshot := ⟨false, []⟩, pollCount := 0 } : PollCycle).pollCount
      = 0) ∧
    (∀ k, k < 30 → NonTerminal ((fun _ => ((.ok "running" none : PollResp), "ts")) k).1) ∧
    ((let r := runTicksF (fun _ => ((.ok "running" none : PollResp), "ts")) 30
        ({ id := 1, taskId := "t1", snapshot := ⟨false, []⟩, pollCount := 0 },
         { initState with
           isRunning := true, taskId := some "t1", pollRef := some 1, pollTimers := [1] })
      r.1.pollCount = 30 ∧
      r.2.result = some timeoutResult ∧ r.2.showResults = true ∧ r.2.isRunning = false ∧
      r.2.pollTimers = [] ∧ r.2.pollRef = none ∧
      (∀ resp : PollResp, ∀ ts : String, pollTick r.1 resp ts r.2 = (r.1, r.2))) ∧
     timeoutResult ≠ pollDefaultErrorResult ∧
     (∀ e : Option String, timeoutResult ≠ mkPushErrorResult e)) :=
  ⟨rfl, fun k hk => ⟨by decide, by decide⟩,
   poll_timeout_after_thirty (fun _ => ((.ok "running" none : PollResp), "ts"))
     { id := 1, taskId := "t1", snapshot := ⟨false, []⟩, pollCount := 0 }
     { initState with
       isRunning := true, taskId := some "t1", pollRef := some 1, pollTimers := [1] }
     rfl rfl rfl rfl rfl (fun k hk => ⟨by decide, by decide⟩)⟩

end Dashboard
